import Mathlib

/-!
Shallow embedding of the Pesapal payment backend (`src/index.js`):
the order-submission handler, the IPN callback handler with its
Firestore transaction, and the transaction-status polling handler.

JavaScript values are modelled as follows: numbers that the code treats
as integers (status codes, points, subtotals) become `Int`; strings stay
`String` except the billing name, which is modelled as `List Char` so
that the `split(' ')` computation can be reasoned about by induction;
possibly-`undefined` fields become `Option`; thrown exceptions become
`Except String`. The Firestore database is a pair of association lists
(collections `orders` and `users`); `t.update`/`update` merge fields
into an existing document and fail on a missing one, which is Firestore
semantics.
-/

namespace Msoo

/-- JS truthiness of an optional string query/body field:
`undefined` and the empty string are falsy (`!x` in the source). -/
def jsTruthy : Option String → Bool
  | none => false
  | some s => s ≠ ""

/-- Payment details written by the callback transaction
(`paymentDetails: { trackingId, method, confirmedOn }`, index.js:179-183). -/
structure PaymentDetails where
  trackingId : String
  method : String
  confirmedOn : Nat
deriving DecidableEq

/-- An `orders` collection document, with the fields the backend reads
and writes (index.js:165-186). `user` holds `order.user.id`. -/
structure Order where
  status : String
  subtotal : Int
  pointsRedeemed : Int
  user : String
  pointsEarned : Option Int
  paymentDetails : Option PaymentDetails
deriving DecidableEq

/-- A `users` collection document; `points` may be absent
(`userData.points || 0`, index.js:174). -/
structure User where
  points : Option Int
deriving DecidableEq

/-- Document lookup in one collection, modelled as an association list. -/
def lookupDoc {α : Type} (id : String) : List (String × α) → Option α
  | [] => none
  | (k, v) :: rest => if k = id then some v else lookupDoc id rest

/-- Firestore `update`: merge fields into every document stored under the
given id, never creating one. -/
def updateDoc {α : Type} (id : String) (f : α → α) :
    List (String × α) → List (String × α)
  | [] => []
  | (k, v) :: rest => (k, if k = id then f v else v) :: updateDoc id f rest

/-- The document store: the two collections the backend touches. -/
structure DB where
  orders : List (String × Order)
  users : List (String × User)
deriving DecidableEq

def lookupOrder (db : DB) (id : String) : Option Order :=
  lookupDoc id db.orders

def lookupUser (db : DB) (id : String) : Option User :=
  lookupDoc id db.users

def updateOrder (db : DB) (id : String) (f : Order → Order) : DB :=
  { db with orders := updateDoc id f db.orders }

def updateUser (db : DB) (id : String) (f : User → User) : DB :=
  { db with users := updateDoc id f db.users }

/-- The fields of the gateway's `GetTransactionStatus` payload that the
handlers read (`status_code`, `payment_method`, `description`). -/
structure GatewayStatus where
  status_code : Int
  payment_method : String
  description : String
deriving DecidableEq

/-! ### Order submission handler (`app.post('/api/pesapal/order')`) -/

/-- `order.user.name.split(' ')[0]` (index.js:111). `List.splitOn`
matches JavaScript `split` on a single-character separator: it keeps
empty segments and returns `[""]` on the empty string, so segment 0 is
the head (present, since `splitOn` never returns `[]`). -/
def firstNameOf (name : List Char) : List Char :=
  (name.splitOn ' ').headD []

/-- `order.user.name.split(' ').slice(1).join(' ') || first` (index.js:112):
the empty join is falsy, so it falls back to the first segment. -/
def lastNameOf (name : List Char) : List Char :=
  let rest := List.intercalate [' '] ((name.splitOn ' ').tail)
  if rest = [] then firstNameOf name else rest

/-- `order.user` in the submission body; every field may be absent. -/
structure OrderUser where
  email : Option String
  phone : Option String
  name : Option (List Char)
deriving DecidableEq

/-- The `order` object of the submission body; fields may be absent. -/
structure OrderPayload where
  total : Option Int
  user : Option OrderUser
deriving DecidableEq

/-- The submission request body `{ order, orderId }`; `none` stands for a
missing or falsy (empty) field. -/
structure OrderBody where
  order : Option OrderPayload
  orderId : Option String
deriving DecidableEq

/-- `billing_address` of the gateway order request (index.js:108-113). -/
structure BillingAddress where
  email_address : Option String
  phone_number : Option String
  first_name : List Char
  last_name : List Char
deriving DecidableEq

/-- The gateway order request `pesapalOrderData` (index.js:101-114). -/
structure PesapalOrderData where
  id : String
  currency : String
  amount : Option Int
  description : String
  callback_url : String
  notification_id : String
  billing_address : BillingAddress
deriving DecidableEq

/-- URL configuration read from the environment (PESAPAL_CONFIG). -/
structure Config where
  redirectUrl : String
  ipnCallbackUrl : String

/-- Building `pesapalOrderData` (index.js:101-114). Dereferencing a
missing `order.user` or `order.user.name` throws a `TypeError`, which the
surrounding `try` turns into the generic 500; absent `total`, `email` or
`phone` just yield `undefined`-valued fields. -/
def buildPesapalOrderData (cfg : Config) (order : OrderPayload)
    (orderId : String) : Except String PesapalOrderData :=
  match order.user with
  | none => .error "TypeError"
  | some u =>
    match u.name with
    | none => .error "TypeError"
    | some name =>
      .ok { id := orderId
            currency := "KES"
            amount := order.total
            description := "Payment for Order #" ++ orderId.take 8
            callback_url := cfg.redirectUrl
            notification_id := cfg.ipnCallbackUrl
            billing_address :=
              { email_address := u.email
                phone_number := u.phone
                first_name := firstNameOf name
                last_name := lastNameOf name } }

/-- `response.data` of `SubmitOrderRequest`: the handler only looks at
`redirect_url` (falsy when absent or empty). -/
structure SubmitData where
  redirect_url : Option String
deriving DecidableEq

/-- HTTP response of the order submission handler. -/
inductive OrderResponse where
  | badRequest (message : String)
  | ok (paymentUrl : String)
  | serverError (message : String)
deriving DecidableEq

/-- Observable outcome of one submission-handler run: the response plus
how often each gateway call was made. -/
structure OrderOutcome where
  response : OrderResponse
  authCalls : Nat
  submitCalls : Nat
deriving DecidableEq

/-- The order submission handler (index.js:93-140). `auth` is the result
of `getPesapalAuthToken()` and `submit` the gateway's reply to
`SubmitOrderRequest`, both supplied by the environment; any throw inside
the `try` becomes the generic 500. -/
def handleOrder (cfg : Config) (body : OrderBody)
    (auth : Except String String)
    (submit : PesapalOrderData → Except String SubmitData) : OrderOutcome :=
  if body.order.isNone ∨ ¬ jsTruthy body.orderId then
    { response := .badRequest "Missing order data."
      authCalls := 0, submitCalls := 0 }
  else
    match auth with
    | .error _ =>
      { response := .serverError "Server error while creating payment request."
        authCalls := 1, submitCalls := 0 }
    | .ok _ =>
      match buildPesapalOrderData cfg (body.order.getD ⟨none, none⟩)
          (body.orderId.getD "") with
      | .error _ =>
        { response := .serverError "Server error while creating payment request."
          authCalls := 1, submitCalls := 0 }
      | .ok pd =>
        match submit pd with
        | .error _ =>
          { response := .serverError "Server error while creating payment request."
            authCalls := 1, submitCalls := 1 }
        | .ok data =>
          match data.redirect_url with
          | some url =>
            if url = "" then
              { response := .serverError "Server error while creating payment request."
                authCalls := 1, submitCalls := 1 }
            else
              { response := .ok url, authCalls := 1, submitCalls := 1 }
          | none =>
            { response := .serverError "Server error while creating payment request."
              authCalls := 1, submitCalls := 1 }

/-! ### Callback handler (`app.get('/api/pesapal/callback')`) -/

/-- The callback request's query string: the two parameters the handler
reads, plus whatever else the caller appended (ignored by the code). -/
structure CallbackRequest where
  OrderTrackingId : Option String
  OrderMerchantReference : Option String
  otherParams : List (String × String)
deriving DecidableEq

/-- HTTP response of the callback handler (plain-text 400/200/500). -/
inductive CbResponse where
  | badRequest (body : String)
  | ok (body : String)
  | serverError (body : String)
deriving DecidableEq

/-- The `db.runTransaction` body (index.js:161-187): read the order,
no-op if already `Processing`, otherwise read the user, compute the
points, and merge both updates. A thrown error aborts with no writes. -/
def callbackTransaction (trackingId merchantRef paymentMethod : String)
    (now : Nat) (db : DB) : Except String DB :=
  match lookupOrder db merchantRef with
  | none => .error "Order not found!"
  | some orderData =>
    if orderData.status = "Processing" then .ok db
    else
      match lookupUser db orderData.user with
      | none => .error "User not found!"
      | some userData =>
        let pointsEarned := orderData.subtotal.fdiv 100
        let newPointsTotal :=
          userData.points.getD 0 - orderData.pointsRedeemed + pointsEarned
        .ok (updateUser
          (updateOrder db merchantRef (fun o =>
            { o with status := "Processing"
                     pointsEarned := some pointsEarned
                     paymentDetails :=
                       some ⟨trackingId, paymentMethod, now⟩ }))
          orderData.user (fun u => { u with points := some newPointsTotal }))

/-- The non-completed path (index.js:189-191): a plain Firestore `update`
of the order's `status` field, which fails when the document is absent. -/
def failOrderUpdate (db : DB) (merchantRef : String) : Except String DB :=
  match lookupOrder db merchantRef with
  | none => .error "NOT_FOUND"
  | some _ => .ok (updateOrder db merchantRef
      (fun o => { o with status := "Payment Failed" }))

/-- The callback handler (index.js:143-199). `gw` is the combined result
of `getPesapalAuthToken()` and the fresh `GetTransactionStatus` query
(an `error` for either failure); `now` is the clock read by
`new Date()`. Returns the response and the resulting store. -/
def handleCallback (req : CallbackRequest) (gw : Except String GatewayStatus)
    (now : Nat) (db : DB) : CbResponse × DB :=
  if ¬ jsTruthy req.OrderTrackingId ∨ ¬ jsTruthy req.OrderMerchantReference then
    (.badRequest "Invalid IPN request.", db)
  else
    match gw with
    | .error _ => (.serverError "Error processing IPN.", db)
    | .ok st =>
      if st.status_code = 1 then
        match callbackTransaction (req.OrderTrackingId.getD "")
            (req.OrderMerchantReference.getD "") st.payment_method now db with
        | .ok db2 => (.ok "Callback received successfully.", db2)
        | .error _ => (.serverError "Error processing IPN.", db)
      else
        match failOrderUpdate db (req.OrderMerchantReference.getD "") with
        | .ok db2 => (.ok "Callback received successfully.", db2)
        | .error _ => (.serverError "Error processing IPN.", db)

/-! ### Status query handler (`app.get('/api/pesapal/transaction-status')`) -/

/-- HTTP response of the status query handler: 400 and 500 responses
carry `{status, description}`, the 200 response carries
`{status, payment_method, description}`. -/
inductive TsResponse where
  | clientError (status description : String)
  | ok (status payment_method description : String)
  | serverError (status description : String)
deriving DecidableEq

/-- The status-code mapping of index.js:216-220: an `INVALID` default
overwritten by the three guarded cases. -/
def getStatusEnum (code : Int) : String :=
  if code = 1 then "COMPLETED"
  else if code = 2 ∨ code = 0 then "FAILED"
  else if code = 3 then "PENDING"
  else "INVALID"

/-- The transaction-status handler (index.js:202-230). `gw` is the
combined result of authentication and the status query. -/
def handleTransactionStatus (pesapalTrackingId : Option String)
    (gw : Except String GatewayStatus) : TsResponse :=
  if ¬ jsTruthy pesapalTrackingId then
    .clientError "INVALID" "Missing tracking ID."
  else
    match gw with
    | .error _ => .serverError "FAILED" "Server error while verifying status."
    | .ok st => .ok (getStatusEnum st.status_code) st.payment_method st.description

/-! ### Spec-side definitions, for comparison with the code -/

/-- The status mapping exactly as the spec enumerates it:
`1 → COMPLETED, 0 → FAILED, 2 → FAILED, 3 → PENDING`, else `INVALID`. -/
def specStatusEnum (code : Int) : String :=
  if code = 1 then "COMPLETED"
  else if code = 0 then "FAILED"
  else if code = 2 then "FAILED"
  else if code = 3 then "PENDING"
  else "INVALID"

/-- The spec's "remainder of the full name after the first space". -/
def afterFirstSpace (name : List Char) : List Char :=
  (name.dropWhile (· ≠ ' ')).tail

/-! ### Helper lemmas: document store -/

theorem lookupDoc_updateDoc_self {α : Type} (id : String) (f : α → α)
    (l : List (String × α)) :
    lookupDoc id (updateDoc id f l) = (lookupDoc id l).map f := by
  induction l with
  | nil => rfl
  | cons p rest ih =>
    obtain ⟨k, v⟩ := p
    by_cases hk : k = id
    · subst hk
      simp [updateDoc, lookupDoc]
    · simp [updateDoc, lookupDoc, hk, ih]

theorem lookupDoc_updateDoc_other {α : Type} {id id' : String} (h : id ≠ id')
    (f : α → α) (l : List (String × α)) :
    lookupDoc id (updateDoc id' f l) = lookupDoc id l := by
  induction l with
  | nil => rfl
  | cons p rest ih =>
    obtain ⟨k, v⟩ := p
    by_cases hk : k = id
    · subst hk
      simp [updateDoc, lookupDoc, h]
    · simp [updateDoc, lookupDoc, hk, ih]

theorem lookupOrder_updateOrder_self (db : DB) (id : String) (f : Order → Order) :
    lookupOrder (updateOrder db id f) id = (lookupOrder db id).map f :=
  lookupDoc_updateDoc_self id f db.orders

theorem lookupOrder_updateOrder_other {id id' : String} (h : id ≠ id')
    (db : DB) (f : Order → Order) :
    lookupOrder (updateOrder db id' f) id = lookupOrder db id :=
  lookupDoc_updateDoc_other h f db.orders

theorem lookupOrder_updateUser (db : DB) (uid : String) (f : User → User)
    (id : String) : lookupOrder (updateUser db uid f) id = lookupOrder db id := rfl

theorem lookupUser_updateOrder (db : DB) (oid : String) (f : Order → Order)
    (id : String) : lookupUser (updateOrder db oid f) id = lookupUser db id := rfl

theorem lookupUser_updateUser_self (db : DB) (id : String) (f : User → User) :
    lookupUser (updateUser db id f) id = (lookupUser db id).map f :=
  lookupDoc_updateDoc_self id f db.users

/-! ### Helper lemmas: name splitting -/

theorem headD_splitOn (name : List Char) :
    (name.splitOn ' ').headD [] = name.takeWhile (· ≠ ' ') := by
  induction name with
  | nil => rfl
  | cons a rest ih =>
    by_cases ha : a = ' '
    · subst ha
      simp [List.splitOn, List.splitOnP_cons]
    · rcases hs : rest.splitOn ' ' with _ | ⟨hd, t⟩
      · exact absurd hs (List.splitOnP_ne_nil _ rest)
      · simp only [List.splitOn] at hs ih ⊢
        rw [List.splitOnP_cons, if_neg (by simpa using ha), hs]
        rw [hs] at ih
        simp only [List.headD] at ih
        simp [List.modifyHead, ha, decide_not, ih]

theorem splitOn_no_sep {name : List Char} (h : ' ' ∉ name) :
    name.splitOn ' ' = [name] := by
  apply List.splitOnP_eq_single
  intro y hy hp
  exact h ((beq_iff_eq.mp hp) ▸ hy)

theorem intercalate_tail_splitOn {name : List Char} (h : ' ' ∈ name) :
    List.intercalate [' '] ((name.splitOn ' ').tail) = afterFirstSpace name := by
  induction name with
  | nil => cases h
  | cons a rest ih =>
    by_cases ha : a = ' '
    · subst ha
      have h2 : afterFirstSpace (' ' :: rest) = rest := by
        simp [afterFirstSpace, List.dropWhile_cons]
      simp only [List.splitOn]
      rw [List.splitOnP_cons, if_pos (beq_self_eq_true ' '), h2, List.tail_cons]
      exact List.intercalate_splitOn rest ' '
    · have h' : ' ' ∈ rest := by
        rcases List.mem_cons.mp h with h1 | h1
        · exact absurd h1.symm ha
        · exact h1
      rcases hs : rest.splitOn ' ' with _ | ⟨hd, t⟩
      · exact absurd hs (List.splitOnP_ne_nil _ rest)
      · simp only [List.splitOn] at hs ih ⊢
        rw [List.splitOnP_cons, if_neg (by simpa using ha), hs]
        rw [hs] at ih
        simpa [List.modifyHead, afterFirstSpace, ha] using ih h'

/-! ### Helper lemmas: the callback transaction -/

theorem callbackTransaction_already_processing {db : DB} {mref : String}
    {o : Order} (ho : lookupOrder db mref = some o)
    (hs : o.status = "Processing") (tid pm : String) (now : Nat) :
    callbackTransaction tid mref pm now db = .ok db := by
  simp [callbackTransaction, ho, hs]

theorem callbackTransaction_ok_processing {tid mref pm : String} {now : Nat}
    {db db' : DB} (h : callbackTransaction tid mref pm now db = .ok db') :
    ∃ o, lookupOrder db' mref = some o ∧ o.status = "Processing" := by
  cases ho : lookupOrder db mref with
  | none => simp [callbackTransaction, ho] at h
  | some od =>
    simp only [callbackTransaction, ho] at h
    by_cases hs : od.status = "Processing"
    · rw [if_pos hs] at h
      injection h with h
      subst h
      exact ⟨od, ho, hs⟩
    · rw [if_neg hs] at h
      cases hu : lookupUser db od.user with
      | none => simp [hu] at h
      | some ud =>
        simp only [hu] at h
        injection h with h
        subst h
        refine ⟨({ od with
            status := "Processing"
            pointsEarned := some (od.subtotal.fdiv 100)
            paymentDetails := some ⟨tid, pm, now⟩ } : Order), ?_, rfl⟩
        rw [lookupOrder_updateUser, lookupOrder_updateOrder_self, ho]
        rfl

theorem callbackTransaction_error_stable {tid mref pm : String} {now : Nat}
    {db : DB} {e : String}
    (h : callbackTransaction tid mref pm now db = .error e)
    (tid' pm' : String) (now' : Nat) :
    callbackTransaction tid' mref pm' now' db = .error e := by
  cases ho : lookupOrder db mref with
  | none =>
    simp only [callbackTransaction, ho] at h ⊢
    exact h
  | some od =>
    simp only [callbackTransaction, ho] at h ⊢
    by_cases hs : od.status = "Processing"
    · rw [if_pos hs] at h
      cases h
    · rw [if_neg hs] at h ⊢
      cases hu : lookupUser db od.user with
      | none =>
        simp only [hu] at h ⊢
        exact h
      | some ud =>
        simp only [hu] at h
        cases h

theorem callbackTransaction_preserves_processing {tid mref pm : String}
    {now : Nat} {db db' : DB}
    (hT : callbackTransaction tid mref pm now db = .ok db')
    {id : String} {o : Order} (ho : lookupOrder db id = some o)
    (hs : o.status = "Processing") :
    lookupOrder db' id = some o := by
  cases hm : lookupOrder db mref with
  | none => simp [callbackTransaction, hm] at hT
  | some od =>
    simp only [callbackTransaction, hm] at hT
    by_cases hps : od.status = "Processing"
    · rw [if_pos hps] at hT
      injection hT with hT
      subst hT
      exact ho
    · rw [if_neg hps] at hT
      cases hu : lookupUser db od.user with
      | none => simp [hu] at hT
      | some ud =>
        simp only [hu] at hT
        injection hT with hT
        subst hT
        by_cases hid : id = mref
        · subst hid
          rw [ho] at hm
          injection hm with hm
          exact absurd (hm ▸ hs) hps
        · rw [lookupOrder_updateUser, lookupOrder_updateOrder_other hid, ho]

/-! ### Concrete sample documents, used by the witnesses -/

def sampleOrder : Order := ⟨"Pending", 250, 10, "u1", none, none⟩

def sampleUser : User := ⟨some 40⟩

def sampleDB : DB := ⟨[("ord1", sampleOrder)], [("u1", sampleUser)]⟩

def procOrder : Order := ⟨"Processing", 250, 10, "u1", some 2, some ⟨"T1", "MPESA", 99⟩⟩

def procDB : DB := ⟨[("ord1", procOrder)], [("u1", ⟨some 32⟩)]⟩

/-! ### Claims -/

/-- Claim C1: the callback handler's decision depends only on the two
query parameters it reads and on the freshly queried gateway result;
any other caller-supplied input (for instance a status field in the
query string) changes neither the state transition nor the response. -/
theorem callback_status_from_gateway_only
    (req1 req2 : CallbackRequest) (gw : Except String GatewayStatus)
    (now : Nat) (db : DB)
    (h1 : req1.OrderTrackingId = req2.OrderTrackingId)
    (h2 : req1.OrderMerchantReference = req2.OrderMerchantReference) :
    handleCallback req1 gw now db = handleCallback req2 gw now db := by
  simp only [handleCallback, h1, h2]

/-- Witness for C1: a callback carrying a forged `status` query parameter
is handled exactly like one without it. -/
theorem callback_status_from_gateway_only_witness :
    handleCallback ⟨some "T1", some "ord1", [("status", "FAILED")]⟩
        (.ok ⟨1, "MPESA", "Completed"⟩) 99 sampleDB =
      handleCallback ⟨some "T1", some "ord1", []⟩
        (.ok ⟨1, "MPESA", "Completed"⟩) 99 sampleDB :=
  callback_status_from_gateway_only _ _ _ _ _ rfl rfl

/-- Claim C2: the completed-status callback is idempotent: running the
handler a second time (with any completed gateway result and at any later
clock) on the state left by a first completed run changes nothing and
returns the first run's response again. -/
theorem completed_callback_idempotent
    (req : CallbackRequest) (gw gw' : GatewayStatus) (now now' : Nat)
    (db : DB) (h : gw.status_code = 1) (h' : gw'.status_code = 1) :
    handleCallback req (.ok gw') now' (handleCallback req (.ok gw) now db).2 =
      handleCallback req (.ok gw) now db := by
  by_cases hv : jsTruthy req.OrderTrackingId = false ∨
      jsTruthy req.OrderMerchantReference = false
  · simp [handleCallback, hv]
  · cases hT : callbackTransaction (req.OrderTrackingId.getD "")
        (req.OrderMerchantReference.getD "") gw.payment_method now db with
    | ok db2 =>
      obtain ⟨o, ho, hs⟩ := callbackTransaction_ok_processing hT
      have h2 := callbackTransaction_already_processing ho hs
        (req.OrderTrackingId.getD "") gw'.payment_method now'
      simp [handleCallback, hv, h, h', hT, h2]
    | error e =>
      have h2 := callbackTransaction_error_stable hT
        (req.OrderTrackingId.getD "") gw'.payment_method now'
      simp [handleCallback, hv, h, h', hT, h2]

/-- Witness for C2: a duplicate completed callback on the sample store. -/
theorem completed_callback_idempotent_witness :
    (GatewayStatus.mk 1 "MPESA" "d").status_code = 1 ∧
    handleCallback ⟨some "T1", some "ord1", []⟩ (.ok ⟨1, "MPESA", "d"⟩) 123
        (handleCallback ⟨some "T1", some "ord1", []⟩
          (.ok ⟨1, "MPESA", "d"⟩) 99 sampleDB).2 =
      handleCallback ⟨some "T1", some "ord1", []⟩
        (.ok ⟨1, "MPESA", "d"⟩) 99 sampleDB :=
  ⟨rfl, completed_callback_idempotent _ _ _ _ _ _ rfl rfl⟩

/-- Claim C3: on a completed callback for an order not already in
`Processing` (with order and user present), the committed values are
`pointsEarned = floor(subtotal / 100)` and
`points = (user.points or 0) - pointsRedeemed + pointsEarned`, together
with the `Processing` status and the payment details, and the handler
responds with the success message. -/
theorem completed_callback_commits_points
    (req : CallbackRequest) (gw : GatewayStatus) (now : Nat) (db : DB)
    (mref : String) (order : Order) (user : User)
    (ht : jsTruthy req.OrderTrackingId = true)
    (hm : req.OrderMerchantReference = some mref)
    (hm' : mref ≠ "")
    (hc : gw.status_code = 1)
    (ho : lookupOrder db mref = some order)
    (hs : order.status ≠ "Processing")
    (hu : lookupUser db order.user = some user) :
    (handleCallback req (.ok gw) now db).1 =
      .ok "Callback received successfully." ∧
    lookupOrder (handleCallback req (.ok gw) now db).2 mref =
      some { order with
        status := "Processing"
        pointsEarned := some (order.subtotal.fdiv 100)
        paymentDetails :=
          some ⟨req.OrderTrackingId.getD "", gw.payment_method, now⟩ } ∧
    lookupUser (handleCallback req (.ok gw) now db).2 order.user =
      some { user with
        points := some (user.points.getD 0 - order.pointsRedeemed +
          order.subtotal.fdiv 100) } := by
  have hmt : jsTruthy (some mref) = true := by
    simpa [jsTruthy] using hm'
  refine ⟨?_, ?_, ?_⟩ <;>
    simp [handleCallback, callbackTransaction, ht, hmt, hm, hc, ho, hs, hu,
      lookupOrder_updateUser, lookupOrder_updateOrder_self,
      lookupUser_updateUser_self, lookupUser_updateOrder]

/-- Witness for C3: the spec's scenario — Order `{subtotal := 250,
pointsRedeemed := 10}`, User `{points := 40}` — yields
`pointsEarned = 2` and a final balance of `32`. -/
theorem completed_callback_commits_points_witness :
    jsTruthy (some "T1") = true ∧ some "ord1" = some "ord1" ∧
    "ord1" ≠ "" ∧ (GatewayStatus.mk 1 "MPESA" "d").status_code = 1 ∧
    lookupOrder sampleDB "ord1" = some sampleOrder ∧
    sampleOrder.status ≠ "Processing" ∧
    lookupUser sampleDB "u1" = some sampleUser ∧
    ((handleCallback ⟨some "T1", some "ord1", []⟩
        (.ok ⟨1, "MPESA", "d"⟩) 99 sampleDB).1 =
      .ok "Callback received successfully." ∧
    lookupOrder (handleCallback ⟨some "T1", some "ord1", []⟩
        (.ok ⟨1, "MPESA", "d"⟩) 99 sampleDB).2 "ord1" =
      some { sampleOrder with
        status := "Processing"
        pointsEarned := some 2
        paymentDetails := some ⟨"T1", "MPESA", 99⟩ } ∧
    lookupUser (handleCallback ⟨some "T1", some "ord1", []⟩
        (.ok ⟨1, "MPESA", "d"⟩) 99 sampleDB).2 "u1" =
      some { sampleUser with points := some 32 }) :=
  ⟨by decide, rfl, by decide, rfl, by decide, by decide, by decide,
    completed_callback_commits_points ⟨some "T1", some "ord1", []⟩
      ⟨1, "MPESA", "d"⟩ 99 sampleDB "ord1" sampleOrder sampleUser
      (by decide) rfl (by decide) rfl (by decide) (by decide) (by decide)⟩

/-- Counterexample to claim C4 as stated: `Processing` is not terminal.
On an order already in `Processing`, a callback whose freshly queried
status code is 0 overwrites the status with `Payment Failed`. -/
theorem processing_not_terminal_cex :
    lookupOrder procDB "ord1" = some procOrder ∧
    procOrder.status = "Processing" ∧
    (lookupOrder (handleCallback ⟨some "T1", some "ord1", []⟩
        (.ok ⟨0, "CARD", "failed"⟩) 123 procDB).2 "ord1").map Order.status =
      some "Payment Failed" := by decide

/-- Claim C4, amended: an order in `Processing` keeps its document
unchanged under every callback invocation whose freshly queried status
code is 1 (and the submission and status-query handlers never write the
store at all); a callback with a non-1 code, however, can overwrite the
status with `Payment Failed`. -/
theorem processing_preserved_by_completed_callback
    (req : CallbackRequest) (gw : GatewayStatus) (now : Nat) (db : DB)
    (id : String) (o : Order)
    (hc : gw.status_code = 1)
    (ho : lookupOrder db id = some o)
    (hs : o.status = "Processing") :
    lookupOrder (handleCallback req (.ok gw) now db).2 id = some o := by
  by_cases hv : jsTruthy req.OrderTrackingId = false ∨
      jsTruthy req.OrderMerchantReference = false
  · simp [handleCallback, hv, ho]
  · cases hT : callbackTransaction (req.OrderTrackingId.getD "")
        (req.OrderMerchantReference.getD "") gw.payment_method now db with
    | ok db2 =>
      have hkeep := callbackTransaction_preserves_processing hT ho hs
      simp [handleCallback, hv, hc, hT, hkeep]
    | error e =>
      simp [handleCallback, hv, hc, hT, ho]

/-- Witness for C4 (amended): a completed duplicate callback leaves the
already-processed sample order untouched. -/
theorem processing_preserved_by_completed_callback_witness :
    (GatewayStatus.mk 1 "MPESA" "d").status_code = 1 ∧
    lookupOrder procDB "ord1" = some procOrder ∧
    procOrder.status = "Processing" ∧
    lookupOrder (handleCallback ⟨some "T1", some "ord1", []⟩
        (.ok ⟨1, "MPESA", "d"⟩) 123 procDB).2 "ord1" = some procOrder :=
  ⟨rfl, by decide, by decide,
    processing_preserved_by_completed_callback ⟨some "T1", some "ord1", []⟩
      ⟨1, "MPESA", "d"⟩ 123 procDB "ord1" procOrder rfl (by decide) (by decide)⟩

/-- Claim C5: on a non-1 freshly queried status code (for an existing
order), the handler answers with the success message, sets exactly that
order's `status` to `Payment Failed`, and changes nothing else: no other
order field, no other order, and no user document. -/
theorem failed_callback_frame
    (req : CallbackRequest) (gw : GatewayStatus) (now : Nat) (db : DB)
    (mref : String) (order : Order)
    (ht : jsTruthy req.OrderTrackingId = true)
    (hm : req.OrderMerchantReference = some mref)
    (hm' : mref ≠ "")
    (hc : gw.status_code ≠ 1)
    (ho : lookupOrder db mref = some order) :
    (handleCallback req (.ok gw) now db).1 =
      .ok "Callback received successfully." ∧
    (handleCallback req (.ok gw) now db).2.users = db.users ∧
    lookupOrder (handleCallback req (.ok gw) now db).2 mref =
      some { order with status := "Payment Failed" } ∧
    ∀ id, id ≠ mref →
      lookupOrder (handleCallback req (.ok gw) now db).2 id =
        lookupOrder db id := by
  have hmt : jsTruthy (some mref) = true := by
    simpa [jsTruthy] using hm'
  have hrun : handleCallback req (.ok gw) now db =
      (.ok "Callback received successfully.",
        updateOrder db mref (fun o => { o with status := "Payment Failed" })) := by
    simp [handleCallback, failOrderUpdate, ht, hmt, hm, hc, ho]
  rw [hrun]
  refine ⟨rfl, rfl, ?_, fun id hid => ?_⟩
  · rw [lookupOrder_updateOrder_self, ho]
    rfl
  · exact lookupOrder_updateOrder_other hid db _

/-- Witness for C5: a failed callback on the sample pending order. -/
theorem failed_callback_frame_witness :
    jsTruthy (some "T1") = true ∧ some "ord1" = some "ord1" ∧
    "ord1" ≠ "" ∧ (GatewayStatus.mk 2 "CARD" "f").status_code ≠ 1 ∧
    lookupOrder sampleDB "ord1" = some sampleOrder ∧
    ((handleCallback ⟨some "T1", some "ord1", []⟩
        (.ok ⟨2, "CARD", "f"⟩) 99 sampleDB).1 =
      .ok "Callback received successfully." ∧
    (handleCallback ⟨some "T1", some "ord1", []⟩
        (.ok ⟨2, "CARD", "f"⟩) 99 sampleDB).2.users = sampleDB.users ∧
    lookupOrder (handleCallback ⟨some "T1", some "ord1", []⟩
        (.ok ⟨2, "CARD", "f"⟩) 99 sampleDB).2 "ord1" =
      some { sampleOrder with status := "Payment Failed" } ∧
    ∀ id, id ≠ "ord1" →
      lookupOrder (handleCallback ⟨some "T1", some "ord1", []⟩
          (.ok ⟨2, "CARD", "f"⟩) 99 sampleDB).2 id =
        lookupOrder sampleDB id) :=
  ⟨by decide, rfl, by decide, by decide, by decide,
    failed_callback_frame ⟨some "T1", some "ord1", []⟩ ⟨2, "CARD", "f"⟩
      99 sampleDB "ord1" sampleOrder (by decide) rfl (by decide)
      (by decide) (by decide)⟩

/-- Claim C9: if during a completed-status callback the order document,
or the user document it references, is absent, the whole store is left
unchanged (no partial write, no document created) and the handler
answers the provider with the server-error response. -/
theorem callback_missing_doc_aborts
    (req : CallbackRequest) (gw : GatewayStatus) (now : Nat) (db : DB)
    (mref : String)
    (ht : jsTruthy req.OrderTrackingId = true)
    (hm : req.OrderMerchantReference = some mref)
    (hm' : mref ≠ "")
    (hc : gw.status_code = 1)
    (habs : lookupOrder db mref = none ∨
      ∃ order, lookupOrder db mref = some order ∧
        order.status ≠ "Processing" ∧ lookupUser db order.user = none) :
    handleCallback req (.ok gw) now db =
      (.serverError "Error processing IPN.", db) := by
  have hmt : jsTruthy (some mref) = true := by
    simpa [jsTruthy] using hm'
  rcases habs with h0 | ⟨o, ho, hs, hu⟩
  · simp [handleCallback, callbackTransaction, ht, hmt, hm, hc, h0]
  · simp [handleCallback, callbackTransaction, ht, hmt, hm, hc, ho, hs, hu]

/-- Witness for C9: a completed callback for an absent order id. -/
theorem callback_missing_doc_aborts_witness :
    jsTruthy (some "T1") = true ∧ some "ghost" = some "ghost" ∧
    "ghost" ≠ "" ∧ (GatewayStatus.mk 1 "MPESA" "d").status_code = 1 ∧
    lookupOrder sampleDB "ghost" = none ∧
    handleCallback ⟨some "T1", some "ghost", []⟩
        (.ok ⟨1, "MPESA", "d"⟩) 99 sampleDB =
      (.serverError "Error processing IPN.", sampleDB) :=
  ⟨by decide, rfl, by decide, rfl, by decide,
    callback_missing_doc_aborts ⟨some "T1", some "ghost", []⟩
      ⟨1, "MPESA", "d"⟩ 99 sampleDB "ghost" (by decide) rfl (by decide) rfl
      (Or.inl (by decide))⟩

/-- Claim C6: the status query handler maps the provider's numeric code
exactly as the spec enumerates it — `1 → COMPLETED`, `0 → FAILED`,
`2 → FAILED`, `3 → PENDING`, anything else `INVALID` — and responds with
that status together with the gateway's `payment_method` and
`description`. -/
theorem status_enum_mapping (tid : Option String) (gw : GatewayStatus)
    (h : jsTruthy tid = true) :
    handleTransactionStatus tid (.ok gw) =
      .ok (specStatusEnum gw.status_code) gw.payment_method gw.description := by
  have henum : getStatusEnum gw.status_code = specStatusEnum gw.status_code := by
    by_cases c1 : gw.status_code = 1 <;> by_cases c0 : gw.status_code = 0 <;>
      by_cases c2 : gw.status_code = 2 <;> by_cases c3 : gw.status_code = 3 <;>
      simp_all [getStatusEnum, specStatusEnum]
  simp [handleTransactionStatus, h, henum]

/-- Witness for C6, at the otherwise-uncovered code 7. -/
theorem status_enum_mapping_witness :
    jsTruthy (some "T1") = true ∧
    handleTransactionStatus (some "T1") (.ok ⟨7, "CARD", "desc"⟩) =
      .ok (specStatusEnum 7) "CARD" "desc" ∧
    specStatusEnum 7 = "INVALID" :=
  ⟨by decide, status_enum_mapping (some "T1") ⟨7, "CARD", "desc"⟩ (by decide),
    by decide⟩

/-- Claim C7: a submission request with a missing/falsy `order` or
`orderId` is answered with the 400 validation response, and neither
gateway call is made (call counts stay 0); nothing else happens. -/
theorem submission_validation_no_gateway
    (cfg : Config) (body : OrderBody) (auth : Except String String)
    (submit : PesapalOrderData → Except String SubmitData)
    (h : body.order = none ∨ jsTruthy body.orderId = false) :
    handleOrder cfg body auth submit =
      { response := .badRequest "Missing order data."
        authCalls := 0, submitCalls := 0 } := by
  rcases h with h | h <;> simp [handleOrder, h]

/-- Witness for C7: a body without an `order`. -/
theorem submission_validation_no_gateway_witness :
    ((⟨none, some "abcdef1234"⟩ : OrderBody).order = none ∨
      jsTruthy (some "abcdef1234") = false) ∧
    handleOrder ⟨"r", "n"⟩ ⟨none, some "abcdef1234"⟩ (.ok "tok")
        (fun _ => .ok ⟨some "https://pay.example"⟩) =
      { response := .badRequest "Missing order data."
        authCalls := 0, submitCalls := 0 } :=
  ⟨Or.inl rfl, submission_validation_no_gateway ⟨"r", "n"⟩
    ⟨none, some "abcdef1234"⟩ (.ok "tok")
    (fun _ => .ok ⟨some "https://pay.example"⟩) (Or.inl rfl)⟩

/-- Claim C10: validation only checks truthiness, not shape: a truthy
`order` lacking the expected fields (no `user`, or a `user` without a
`name`) passes validation, the authentication call is made (count 1),
and the handler then answers 500 with the generic failure message — not
the 400 validation response — with no submission call. -/
theorem submission_shape_unchecked
    (cfg : Config) (body : OrderBody) (auth : Except String String)
    (submit : PesapalOrderData → Except String SubmitData)
    (order : OrderPayload)
    (ho : body.order = some order)
    (hid : jsTruthy body.orderId = true)
    (hbad : order.user = none ∨
      ∃ u, order.user = some u ∧ u.name = none) :
    handleOrder cfg body auth submit =
      { response := .serverError "Server error while creating payment request."
        authCalls := 1, submitCalls := 0 } := by
  have hbuild : buildPesapalOrderData cfg order (body.orderId.getD "") =
      .error "TypeError" := by
    rcases hbad with h | ⟨u, hu, hn⟩
    · simp [buildPesapalOrderData, h]
    · simp [buildPesapalOrderData, hu, hn]
  cases auth with
  | error e => simp [handleOrder, ho, hid]
  | ok tok => simp [handleOrder, ho, hid, hbuild]

/-- Witness for C10: `order` is the empty object `{}` and auth succeeds. -/
theorem submission_shape_unchecked_witness :
    ((⟨some ⟨none, none⟩, some "abcdef1234"⟩ : OrderBody).order =
      some ⟨none, none⟩) ∧
    jsTruthy (some "abcdef1234") = true ∧
    ((⟨none, none⟩ : OrderPayload).user = none ∨
      ∃ u, (⟨none, none⟩ : OrderPayload).user = some u ∧ u.name = none) ∧
    handleOrder ⟨"r", "n"⟩ ⟨some ⟨none, none⟩, some "abcdef1234"⟩ (.ok "tok")
        (fun _ => .ok ⟨some "https://pay.example"⟩) =
      { response := .serverError "Server error while creating payment request."
        authCalls := 1, submitCalls := 0 } :=
  ⟨rfl, by decide, Or.inl rfl,
    submission_shape_unchecked ⟨"r", "n"⟩ ⟨some ⟨none, none⟩, some "abcdef1234"⟩
      (.ok "tok") (fun _ => .ok ⟨some "https://pay.example"⟩) ⟨none, none⟩
      rfl (by decide) (Or.inl rfl)⟩

def sampleCfg : Config :=
  ⟨"https://app.example/#/pesapal-callback",
   "https://app.example/api/pesapal/callback"⟩

def joTrailOrder : OrderPayload :=
  ⟨some 500, some ⟨some "a@b.com", some "1", some "Jo ".toList⟩⟩

def joDoeUser : OrderUser := ⟨some "a@b.com", some "1", some "Jo Doe".toList⟩

def joDoeOrder : OrderPayload := ⟨some 500, some joDoeUser⟩

def joDoePd : PesapalOrderData :=
  ⟨"abcdef1234", "KES", some 500, "Payment for Order #abcdef12",
   "https://app.example/#/pesapal-callback",
   "https://app.example/api/pesapal/callback",
   ⟨some "a@b.com", some "1", "Jo".toList, "Doe".toList⟩⟩

/-- Counterexample to claim C8 as stated: for the valid submission whose
billing name is `"Jo "` (one trailing space), the name does contain a
space, yet the gateway request's `last_name` is `"Jo"` — the `|| first`
fallback fires because the remainder after the first space is empty —
and not that empty remainder. -/
theorem lastname_remainder_cex :
    ' ' ∈ "Jo ".toList ∧
    (buildPesapalOrderData sampleCfg joTrailOrder "abcdef1234").toOption.map
        (fun pd => pd.billing_address.last_name) = some "Jo".toList ∧
    afterFirstSpace "Jo ".toList = [] ∧
    some "Jo".toList ≠ some (afterFirstSpace "Jo ".toList) := by decide

/-- Claim C8, amended: for every valid order submission the gateway
request's `first_name` is the name's longest space-free prefix and its
description embeds the 8-character orderId prefix; `last_name` equals
the remainder of the full name after the first space whenever the name
contains a space and that remainder is non-empty, and duplicates
`first_name` when the name contains no space or when that remainder is
empty (a name whose only space is final). The spec's example (name
`"Jo Doe"`, orderId `"abcdef1234"`) holds as stated. -/
theorem lastname_after_first_space
    (cfg : Config) (order : OrderPayload) (orderId : String)
    (u : OrderUser) (name : List Char) (pd : PesapalOrderData)
    (hu : order.user = some u) (hn : u.name = some name)
    (hpd : buildPesapalOrderData cfg order orderId = .ok pd) :
    pd.description = "Payment for Order #" ++ orderId.take 8 ∧
    pd.billing_address.first_name = name.takeWhile (· ≠ ' ') ∧
    (' ' ∈ name → afterFirstSpace name ≠ [] →
      pd.billing_address.last_name = afterFirstSpace name) ∧
    (' ' ∉ name →
      pd.billing_address.last_name = pd.billing_address.first_name) ∧
    (afterFirstSpace name = [] →
      pd.billing_address.last_name = pd.billing_address.first_name) := by
  simp only [buildPesapalOrderData, hu, hn] at hpd
  injection hpd with hpd
  subst hpd
  refine ⟨rfl, headD_splitOn name, ?_, ?_, ?_⟩
  · intro hsp hne
    show lastNameOf name = afterFirstSpace name
    simp only [lastNameOf]
    rw [intercalate_tail_splitOn hsp, if_neg hne]
  · intro hnsp
    show lastNameOf name = firstNameOf name
    simp only [lastNameOf]
    rw [splitOn_no_sep hnsp]
    rfl
  · intro hempty
    by_cases hsp : ' ' ∈ name
    · show lastNameOf name = firstNameOf name
      simp only [lastNameOf]
      rw [intercalate_tail_splitOn hsp, hempty, if_pos rfl]
    · show lastNameOf name = firstNameOf name
      simp only [lastNameOf]
      rw [splitOn_no_sep hsp]
      rfl

/-- Witness for C8 (amended): the spec's `"Jo Doe"`/`"abcdef1234"`
scenario — `first_name = "Jo"`, `last_name = "Doe"`, description
`"Payment for Order #abcdef12"`. -/
theorem lastname_after_first_space_witness :
    buildPesapalOrderData sampleCfg joDoeOrder "abcdef1234" = .ok joDoePd ∧
    joDoePd.billing_address.last_name = "Doe".toList ∧
    joDoePd.billing_address.first_name = "Jo".toList ∧
    joDoePd.description = "Payment for Order #abcdef12" ∧
    (joDoePd.description = "Payment for Order #" ++ "abcdef1234".take 8 ∧
     joDoePd.billing_address.first_name =
       "Jo Doe".toList.takeWhile (· ≠ ' ') ∧
     (' ' ∈ "Jo Doe".toList → afterFirstSpace "Jo Doe".toList ≠ [] →
       joDoePd.billing_address.last_name = afterFirstSpace "Jo Doe".toList) ∧
     (' ' ∉ "Jo Doe".toList →
       joDoePd.billing_address.last_name = joDoePd.billing_address.first_name) ∧
     (afterFirstSpace "Jo Doe".toList = [] →
       joDoePd.billing_address.last_name = joDoePd.billing_address.first_name)) :=
  ⟨rfl, by decide, by decide, by decide,
    lastname_after_first_space sampleCfg joDoeOrder "abcdef1234" joDoeUser
      "Jo Doe".toList joDoePd rfl rfl rfl⟩

end Msoo
